import Mathlib

/-!
Verification of the Notely note-taking backend (Django project `notely_project`).

The repository ships the data model (`notes_app/models.py`, `users/models.py`)
and its test suites; the authorization, serialization and view modules
(`notes_app/permissions.py`, `notes_app/serializers.py`, `notes_app/views.py`)
are referenced by the tests but their sources are not present, so those parts
are modelled from the specification (each such definition is marked
`Modelled from the spec:`).
-/

namespace Notely

/-- Role of an account, per `users/models.py` (`CustomUser.ROLE_CHOICES`):
exactly `regular` or `admin`. -/
inductive Role where
  | regular
  | admin
deriving DecidableEq, Repr

/-- The actor attached to a request: `anonymous` covers both Django's
`AnonymousUser` and a `None` user; `auth` is an authenticated `CustomUser`,
identified by its unique email (`USERNAME_FIELD = 'email'`) and carrying a
role. -/
inductive Actor where
  | anonymous
  | auth (identity : String) (role : Role)
deriving DecidableEq, Repr

/-- Whether the actor is an authenticated user (`request.user.is_authenticated`). -/
def Actor.isAuthenticated : Actor → Bool
  | .anonymous => false
  | .auth _ _ => true

/-- Whether the actor is an administrator, per `CustomUser.is_admin`:
`self.role == self.ADMIN`. -/
def Actor.isAdmin : Actor → Bool
  | .anonymous => false
  | .auth _ r => r == Role.admin

/-- A note record, per `notes_app/models.py` (`Note`): a foreign key to the
owning user (represented by the owner's identity), a title, plain-text
content, and two timestamps (represented as abstract instants). -/
structure Note where
  id : Nat
  owner : String
  title : String
  content : String
  created_at : Nat
  updated_at : Nat
deriving DecidableEq, Repr

/-- The fault raised when the access policy is applied to an object without a
`user` attribute (Python `AttributeError`, surfacing as a 500). -/
inductive PolicyFault where
  | missingOwnerAttribute
deriving DecidableEq, Repr

/-- An arbitrary object handed to `has_object_permission`; its `user`
attribute may be absent (`none`), as in
`IsOwnerPermissionTest.test_permission_with_missing_user_attribute`. -/
structure ResourceObj where
  user : Option String
deriving DecidableEq, Repr

/-- View a `Note` as the object handed to the policy: its `user` attribute is
always present and holds the owner. -/
def Note.toResource (n : Note) : ResourceObj :=
  { user := some n.owner }

/-- Modelled from the spec: `IsOwner.has_object_permission` from
`notes_app/permissions.py`, which is absent from the sources. Per §4.1 of the
spec: allow iff the actor is authenticated and its identity equals the
resource owner's identity; anonymous is always denied; any other identity
(admins included) is denied at this checkpoint; an object lacking an owner
attribute is a programming error signalled as a fault, not a normal deny. -/
def isOwnerPermission (actor : Actor) (obj : ResourceObj) :
    Except PolicyFault Bool :=
  match obj.user with
  | none => .error .missingOwnerAttribute
  | some ownerId =>
    match actor with
    | .anonymous => .ok false
    | .auth ident _ => .ok (ident == ownerId)

/-- The operations of the admin namespace, per §4.1 of the spec. -/
inductive AdminOp where
  | listAll
  | getAny
  | updateAny
  | deleteAny
  | createForUser
deriving DecidableEq, Repr

/-- Modelled from the spec: the admin-namespace permission (an `IsAdmin`-style
check in the absent `notes_app/permissions.py`/`views.py`). Per §4.1: allow
iff `actor.role == admin`, regardless of which account owns the note. -/
def adminAuthorize (actor : Actor) (_op : AdminOp) (_n : Note) : Bool :=
  actor.isAdmin

/-- Modelled from the spec: the fields a client may supply in a request body
to `NoteSerializer` (notes_app/serializers.py, absent from the sources);
`user`, `id`, `created_at` and `updated_at` are accepted in the body but are
read-only (§4.3). -/
structure Payload where
  title : Option String
  content : Option String
  user : Option String
  id : Option Nat
  created_at : Option Nat
  updated_at : Option Nat
deriving DecidableEq, Repr

/-- Strip leading and trailing whitespace from a character list (the model
of Python's `str.strip()` applied to a string's characters). -/
def trimList (l : List Char) : List Char :=
  ((l.dropWhile Char.isWhitespace).reverse.dropWhile Char.isWhitespace).reverse

/-- Modelled from the spec: title validation (§4.3) — fails if empty or
whitespace-only after trim, or longer than 200 characters. -/
def validTitle (t : String) : Bool :=
  !(trimList t.data).isEmpty && decide (t.length ≤ 200)

/-- Modelled from the spec: content validation (§4.3) — fails if empty or
whitespace-only after trim; no upper length bound. -/
def validContent (c : String) : Bool :=
  !(trimList c.data).isEmpty

/-- Modelled from the spec: the field-keyed validation errors produced by
`NoteSerializer` for a request body; on a full (non-PATCH) body both fields
are required. The client-supplied `user` field is not examined at all. -/
def payloadErrors (p : Payload) (patch : Bool) : List String :=
  (match p.title with
    | none => if patch then [] else ["title"]
    | some t => if validTitle t then [] else ["title"]) ++
  (match p.content with
    | none => if patch then [] else ["content"]
    | some c => if validContent c then [] else ["content"])

/-- Validation of a full body carrying exactly a title and a content. -/
def validateNote (title content : String) : List String :=
  payloadErrors
    { title := some title, content := some content, user := none,
      id := none, created_at := none, updated_at := none } false

/-- Modelled from the spec: `NoteSerializer` applied as an update — only
title and content are writable; `id` and `created_at` are read-only and the
client-supplied `user` value is silently discarded (§4.3); `updated_at` is
refreshed by the model's `auto_now`. -/
def applyUpdate (n : Note) (p : Payload) (now : Nat) : Note :=
  { n with
    title := p.title.getD n.title
    content := p.content.getD n.content
    updated_at := now }

/-- Modelled from the spec: building a fresh note from a validated create
body; the owner is supplied by the handler, never by the body's own `user`
field on the regular path. -/
def mkNote (nextId : Nat) (owner : String) (p : Payload) (now : Nat) : Note :=
  { id := nextId, owner := owner, title := p.title.getD "",
    content := p.content.getD "", created_at := now, updated_at := now }

/-- Whether the pattern occurs at the head of the haystack. -/
def leadMatch : List Char → List Char → Bool
  | [], _ => true
  | _ :: _, [] => false
  | p :: ps, h :: hs => (p == h) && leadMatch ps hs

/-- Whether the pattern occurs as a contiguous run anywhere in the
haystack. -/
def subMatch (pat : List Char) : List Char → Bool
  | [] => leadMatch pat []
  | h :: hs => leadMatch pat (h :: hs) || subMatch pat hs

/-- Modelled from the spec: case-insensitive substring match of the search
term against the note's title (ILIKE-style); the term is data operated on
character by character, never query text. -/
def titleMatches (q : String) (n : Note) : Bool :=
  subMatch (q.data.map Char.toLower) (n.title.data.map Char.toLower)

/-- Modelled from the spec: search filtering of a scoped queryset — an
absent or empty search term applies no filtering (§4.2). -/
def searchFilter (search : Option String) (l : List Note) : List Note :=
  match search with
  | none => l
  | some q => if q.isEmpty then l else l.filter (titleMatches q)

/-- The recognized orderings: title or created_at, ascending or
descending. -/
inductive OrderParam where
  | titleAsc
  | titleDesc
  | createdAsc
  | createdDesc
deriving DecidableEq, Repr

/-- Modelled from the spec: the `ordering` query parameter — `title` or
`created_at`, optionally prefixed with `-`; an absent parameter falls back to
the model default `['-created_at']` (notes_app/models.py, `Note.Meta`).
Unrecognized values are an open question of the spec (§9) and are mapped to
the default here. -/
def parseOrd : Option String → OrderParam
  | some "title" => OrderParam.titleAsc
  | some "-title" => OrderParam.titleDesc
  | some "created_at" => OrderParam.createdAsc
  | _ => OrderParam.createdDesc

/-- Apply a recognized ordering to a list of notes; titles are compared
lexicographically on their character sequences. -/
def sortParam (p : OrderParam) (l : List Note) : List Note :=
  match p with
  | OrderParam.titleAsc =>
    List.insertionSort (fun a b => a.title.data ≤ b.title.data) l
  | OrderParam.titleDesc =>
    List.insertionSort (fun a b => b.title.data ≤ a.title.data) l
  | OrderParam.createdAsc =>
    List.insertionSort (fun a b => a.created_at ≤ b.created_at) l
  | OrderParam.createdDesc =>
    List.insertionSort (fun a b => b.created_at ≤ a.created_at) l

/-- Modelled from the spec: the regular list queryset — scope to the
caller's own notes first, then search, then order (§4.2). -/
def resolveRegular (store : List Note) (ident : String)
    (search ord : Option String) : List Note :=
  sortParam (parseOrd ord)
    (searchFilter search (store.filter (fun n => n.owner == ident)))

/-- Modelled from the spec: the admin list queryset — all notes, optionally
narrowed by an explicit owner filter, then search, then order. -/
def resolveAdmin (store : List Note) (userFilter search ord : Option String) :
    List Note :=
  sortParam (parseOrd ord)
    (searchFilter search
      (match userFilter with
        | none => store
        | some u => store.filter (fun n => n.owner == u)))

/-- The operations exposed by the regular and the admin routers (§6). -/
inductive Request where
  | list (search ord : Option String)
  | create (p : Payload)
  | retrieve (nid : Nat)
  | update (nid : Nat) (p : Payload) (patch : Bool)
  | destroy (nid : Nat)
  | adminList (search ord userFilter : Option String)
  | adminCreate (p : Payload)
  | adminRetrieve (nid : Nat)
  | adminUpdate (nid : Nat) (p : Payload) (patch : Bool)
  | adminDestroy (nid : Nat)
deriving DecidableEq, Repr

/-- Whether the request addresses the admin namespace. -/
def Request.isAdminNamespace : Request → Bool
  | .adminList _ _ _ => true
  | .adminCreate _ => true
  | .adminRetrieve _ => true
  | .adminUpdate _ _ _ => true
  | .adminDestroy _ => true
  | _ => false

/-- Outcome of a request: HTTP status, body of a list response (empty for
non-list requests), and the note store after the request. -/
structure HttpResult where
  status : Nat
  results : List Note
  store : List Note
deriving DecidableEq, Repr

/-- First note in the store with the given id. -/
def findNote (store : List Note) (nid : Nat) : Option Note :=
  store.find? (fun n => n.id == nid)

/-- Modelled from the spec: the request handlers (notes_app/views.py and the
URL wiring are absent from the sources). Stage order per §4.4:
authentication, then authorization, then validation, then the store
operation. Anonymous callers get 401 at every endpoint; the regular detail
path masks cross-owner access as 404; the admin namespace rejects identified
non-admin callers with 403. -/
def handle (actor : Actor) (store : List Note) (req : Request)
    (now nextId : Nat) : HttpResult :=
  match actor with
  | Actor.anonymous => { status := 401, results := [], store := store }
  | Actor.auth ident role =>
    match req with
    | Request.list search ord =>
      { status := 200, results := resolveRegular store ident search ord,
        store := store }
    | Request.create p =>
      if payloadErrors p false = [] then
        { status := 201, results := [],
          store := store ++ [mkNote nextId ident p now] }
      else
        { status := 400, results := [], store := store }
    | Request.retrieve nid =>
      match findNote store nid with
      | none => { status := 404, results := [], store := store }
      | some n =>
        if n.owner == ident then
          { status := 200, results := [], store := store }
        else
          { status := 404, results := [], store := store }
    | Request.update nid p patch =>
      match findNote store nid with
      | none => { status := 404, results := [], store := store }
      | some n =>
        if n.owner == ident then
          if payloadErrors p patch = [] then
            { status := 200, results := [],
              store := store.map
                (fun m => if m.id == nid then applyUpdate m p now else m) }
          else
            { status := 400, results := [], store := store }
        else
          { status := 404, results := [], store := store }
    | Request.destroy nid =>
      match findNote store nid with
      | none => { status := 404, results := [], store := store }
      | some n =>
        if n.owner == ident then
          { status := 204, results := [],
            store := store.filter (fun m => !(m.id == nid)) }
        else
          { status := 404, results := [], store := store }
    | Request.adminList search ord userFilter =>
      if role == Role.admin then
        { status := 200, results := resolveAdmin store userFilter search ord,
          store := store }
      else
        { status := 403, results := [], store := store }
    | Request.adminCreate p =>
      if role == Role.admin then
        if payloadErrors p false = [] then
          { status := 201, results := [],
            store := store ++ [mkNote nextId (p.user.getD ident) p now] }
        else
          { status := 400, results := [], store := store }
      else
        { status := 403, results := [], store := store }
    | Request.adminRetrieve nid =>
      if role == Role.admin then
        match findNote store nid with
        | none => { status := 404, results := [], store := store }
        | some _ => { status := 200, results := [], store := store }
      else
        { status := 403, results := [], store := store }
    | Request.adminUpdate nid p patch =>
      if role == Role.admin then
        match findNote store nid with
        | none => { status := 404, results := [], store := store }
        | some _ =>
          if payloadErrors p patch = [] then
            { status := 200, results := [],
              store := store.map
                (fun m => if m.id == nid then applyUpdate m p now else m) }
          else
            { status := 400, results := [], store := store }
      else
        { status := 403, results := [], store := store }
    | Request.adminDestroy nid =>
      if role == Role.admin then
        match findNote store nid with
        | none => { status := 404, results := [], store := store }
        | some _ =>
          { status := 204, results := [],
            store := store.filter (fun m => !(m.id == nid)) }
      else
        { status := 403, results := [], store := store }

/-- Sample note used to instantiate general theorems at concrete inputs. -/
def noteBanana : Note :=
  { id := 1, owner := "user1@example.com", title := "Banana",
    content := "yellow", created_at := 5, updated_at := 5 }

/-- Sample note with a title earlier in lexicographic order. -/
def noteApple : Note :=
  { id := 2, owner := "user1@example.com", title := "Apple",
    content := "green", created_at := 6, updated_at := 6 }

/-- Sample note owned by a second user. -/
def notePython : Note :=
  { id := 3, owner := "user2@example.com", title := "Python Basics",
    content := "learning Python", created_at := 7, updated_at := 7 }

/-- Sample note sharing its title with `noteBanana` but distinct from it. -/
def noteBananaBis : Note :=
  { id := 4, owner := "user1@example.com", title := "Banana",
    content := "plantain", created_at := 8, updated_at := 8 }

/-- Sample store holding notes of two users. -/
def sampleStore : List Note := [noteBanana, noteApple, notePython]

/-- Sample store with two notes sharing one title. -/
def dupTitleStore : List Note := [noteBanana, noteBananaBis]

/-- The SQL-metacharacter search value exercised by
`NoteAPISecurityTest.test_sql_injection_attempt_in_search`. -/
def sqlInjection : String := "'; DROP TABLE notes_note; --"

/-- C1: the regular-path (non-admin-namespace) authorization check on a Note
allows the operation iff the actor is authenticated with identity equal to
the note's owner; anonymous is denied, and any other identified actor —
including one with the admin role — is denied (a normal `ok false`, not a
fault) at this same checkpoint. -/
theorem c1_isOwner_allows_iff_owner (actor : Actor) (n : Note) :
    (isOwnerPermission actor n.toResource = Except.ok true ↔
      ∃ r, actor = Actor.auth n.owner r) ∧
    isOwnerPermission Actor.anonymous n.toResource = Except.ok false ∧
    (∀ i r, i ≠ n.owner →
      isOwnerPermission (Actor.auth i r) n.toResource = Except.ok false) := by
  refine ⟨?_, rfl, ?_⟩
  · cases actor with
    | anonymous =>
      simp [isOwnerPermission, Note.toResource]
    | auth i r =>
      simp only [isOwnerPermission, Note.toResource]
      constructor
      · intro h
        have : (i == n.owner) = true := by
          injection h
        exact ⟨r, by simp [beq_iff_eq.mp this]⟩
      · rintro ⟨r', hr⟩
        injection hr with h1 _
        simp [h1]
  · intro i r hi
    simp [isOwnerPermission, Note.toResource, hi]

/-- Witness for C1 at a concrete actor and note, discharging the
inequality hypothesis of the third conjunct. -/
theorem c1_isOwner_allows_iff_owner_witness :
    ("mallory@example.com" ≠ "user1@example.com") ∧
    isOwnerPermission (Actor.auth "mallory@example.com" Role.admin)
      (Note.toResource
        { id := 1, owner := "user1@example.com", title := "User1 Note",
          content := "This note belongs to user1", created_at := 0,
          updated_at := 0 }) = Except.ok false := by
  refine ⟨by decide, ?_⟩
  exact (c1_isOwner_allows_iff_owner (Actor.auth "mallory@example.com" Role.admin)
    { id := 1, owner := "user1@example.com", title := "User1 Note",
      content := "This note belongs to user1", created_at := 0,
      updated_at := 0 }).2.2 "mallory@example.com" Role.admin (by decide)

/-- C2: every admin-namespace operation on every note is allowed iff the
actor is an authenticated user whose role is admin, regardless of which
account owns the note; every non-admin actor is denied. -/
theorem c2_admin_namespace_allows_iff_admin (actor : Actor) (op : AdminOp)
    (n : Note) :
    adminAuthorize actor op n = true ↔ ∃ i, actor = Actor.auth i Role.admin := by
  cases actor with
  | anonymous => simp [adminAuthorize, Actor.isAdmin]
  | auth i r =>
    cases r with
    | regular => simp [adminAuthorize, Actor.isAdmin]
    | admin => simp [adminAuthorize, Actor.isAdmin]

/-- C9: applying the access policy to a resource object that lacks an owner
attribute signals a fault (the `AttributeError` → 500 path) for every actor,
rather than returning a normal Deny decision. -/
theorem c9_missing_owner_attribute_faults (actor : Actor) :
    isOwnerPermission actor { user := none } =
      Except.error PolicyFault.missingOwnerAttribute := by
  cases actor <;> rfl

/-- Mapping each note to its id-owner pair is unchanged by an in-place
update of matching notes, since `applyUpdate` rewrites neither. -/
theorem map_idOwner_update (store : List Note) (nid : Nat) (p : Payload)
    (now : Nat) :
    (store.map
        (fun m => if m.id == nid then applyUpdate m p now else m)).map
        (fun m => (m.id, m.owner)) =
      store.map (fun m => (m.id, m.owner)) := by
  induction store with
  | nil => rfl
  | cons a t ih =>
    simp only [List.map_cons, ih, List.cons.injEq, and_true]
    by_cases h : (a.id == nid) <;> simp [h, applyUpdate]

/-- C3: an update — full or partial, regular or admin path — never changes
the stored owner: `applyUpdate` preserves owner, id and creation time, a
client-supplied `user` value changes nothing about validation (it is
silently discarded, not an error), and the id-owner assignment of the whole
store is invariant under both update endpoints. -/
theorem c3_update_preserves_owner (n : Note) (p : Payload) (now : Nat) :
    (applyUpdate n p now).owner = n.owner ∧
    (applyUpdate n p now).id = n.id ∧
    (applyUpdate n p now).created_at = n.created_at ∧
    (∀ u patch,
      payloadErrors { p with user := u } patch = payloadErrors p patch) ∧
    (∀ actor store nid patch now2 nextId,
      ((handle actor store (Request.update nid p patch) now2 nextId).store.map
          (fun m => (m.id, m.owner)) =
        store.map (fun m => (m.id, m.owner))) ∧
      ((handle actor store
            (Request.adminUpdate nid p patch) now2 nextId).store.map
          (fun m => (m.id, m.owner)) =
        store.map (fun m => (m.id, m.owner)))) := by
  refine ⟨rfl, rfl, rfl, fun u patch => rfl, ?_⟩
  intro actor store nid patch now2 nextId
  constructor
  · cases actor with
    | anonymous => rfl
    | auth i r =>
      simp only [handle]
      cases hf : findNote store nid with
      | none => rfl
      | some m =>
        dsimp only
        by_cases ho : (m.owner == i) = true
        · rw [if_pos ho]
          by_cases hv : payloadErrors p patch = []
          · rw [if_pos hv]
            exact map_idOwner_update store nid p now2
          · rw [if_neg hv]
        · rw [if_neg ho]
  · cases actor with
    | anonymous => rfl
    | auth i r =>
      simp only [handle]
      by_cases hr : (r == Role.admin) = true
      · rw [if_pos hr]
        cases hf : findNote store nid with
        | none => rfl
        | some m =>
          dsimp only
          by_cases hv : payloadErrors p patch = []
          · rw [if_pos hv]
            exact map_idOwner_update store nid p now2
          · rw [if_neg hv]
      · rw [if_neg hr]

/-- C5: creating or updating a note passes validation iff the title is
non-empty after trimming and at most 200 characters and the content is
non-empty after trimming; the failures are keyed by field, and content has
no upper length bound. -/
theorem c5_validation_characterization (title content : String) :
    (validateNote title content = [] ↔
      (trimList title.data ≠ [] ∧ title.length ≤ 200 ∧
        trimList content.data ≠ [])) ∧
    ("title" ∈ validateNote title content ↔
      (trimList title.data = [] ∨ 200 < title.length)) ∧
    ("content" ∈ validateNote title content ↔ trimList content.data = []) := by
  by_cases h1 : trimList title.data = [] <;>
    by_cases h2 : title.length ≤ 200 <;>
    by_cases h3 : trimList content.data = [] <;>
    simp [validateNote, payloadErrors, validTitle, validContent, h1, h2, h3,
      List.isEmpty_iff] <;>
    omega

/-- Every recognized ordering permutes the list it sorts. -/
theorem sortParam_perm (p : OrderParam) (l : List Note) :
    List.Perm (sortParam p l) l := by
  cases p <;> exact List.perm_insertionSort _ _

/-- Search filtering yields a sublist of its input. -/
theorem searchFilter_sublist (search : Option String) (l : List Note) :
    List.Sublist (searchFilter search l) l := by
  cases search with
  | none => exact List.Sublist.refl l
  | some q =>
    dsimp only [searchFilter]
    by_cases hq : q.isEmpty = true
    · rw [if_pos hq]
    · rw [if_neg hq]
      exact List.filter_sublist l

/-- Membership in a search-filtered list implies membership in the input. -/
theorem mem_searchFilter {search : Option String} {l : List Note} {n : Note}
    (h : n ∈ searchFilter search l) : n ∈ l :=
  (searchFilter_sublist search l).mem h

/-- The empty pattern is a contiguous run of every haystack. -/
theorem subMatch_nil (l : List Char) : subMatch [] l = true := by
  cases l <;> simp [subMatch, leadMatch]

/-- C6: the regular list endpoint is scoped before search and ordering are
applied: every returned note is owned by the requesting user, and the
result depends only on the user's own notes in the store — stores agreeing
on the user's notes produce identical results, for every search term and
ordering. -/
theorem c6_list_scoped_to_owner (store : List Note) (ident : String)
    (search ord : Option String) :
    (∀ n, n ∈ resolveRegular store ident search ord → n.owner = ident) ∧
    (∀ store2,
      store.filter (fun m => m.owner == ident) =
        store2.filter (fun m => m.owner == ident) →
      resolveRegular store ident search ord =
        resolveRegular store2 ident search ord) := by
  constructor
  · intro n hn
    have h1 : n ∈ searchFilter search
        (store.filter (fun m => m.owner == ident)) :=
      ((sortParam_perm (parseOrd ord) _).mem_iff).mp hn
    have h2 : n ∈ store.filter (fun m => m.owner == ident) :=
      mem_searchFilter h1
    have h3 := (List.mem_filter.mp h2).2
    exact eq_of_beq h3
  · intro store2 h
    unfold resolveRegular
    rw [h]

/-- Witness for C6 at a concrete store: the two non-interference hypotheses
are discharged on stores differing only in another user's note. -/
theorem c6_list_scoped_to_owner_witness :
    noteApple.owner = "user1@example.com" ∧
    resolveRegular sampleStore "user1@example.com" none none =
      resolveRegular [noteBanana, noteApple] "user1@example.com" none none := by
  constructor
  · exact (c6_list_scoped_to_owner sampleStore "user1@example.com"
      none none).1 noteApple (by decide)
  · exact (c6_list_scoped_to_owner sampleStore "user1@example.com"
      none none).2 [noteBanana, noteApple] (by decide)

/-- C7: for every search value the regular list result contains exactly the
caller's notes whose title contains the searched characters as a
case-insensitive contiguous run; the note's content is never consulted; an
absent or empty search applies no filtering; and the search value — the SQL
metacharacter payload included — is treated as literal data: the request
answers 200 and the store is untouched. -/
theorem c7_search_literal_title_substring (store : List Note) (ident : String)
    (q : String) (ord : Option String) (n : Note) (now nextId : Nat) :
    (n ∈ resolveRegular store ident (some q) ord ↔
      (n ∈ store ∧ n.owner = ident ∧ titleMatches q n = true)) ∧
    (∀ c2, titleMatches q { n with content := c2 } = titleMatches q n) ∧
    (resolveRegular store ident none ord =
      sortParam (parseOrd ord) (store.filter (fun m => m.owner == ident)) ∧
     resolveRegular store ident (some "") ord =
      sortParam (parseOrd ord) (store.filter (fun m => m.owner == ident))) ∧
    ((handle (Actor.auth ident Role.regular) store
        (Request.list (some sqlInjection) ord) now nextId).status = 200 ∧
     (handle (Actor.auth ident Role.regular) store
        (Request.list (some sqlInjection) ord) now nextId).store = store) := by
  refine ⟨?_, fun c2 => rfl, ⟨rfl, rfl⟩, rfl, rfl⟩
  constructor
  · intro hn
    have h1 : n ∈ searchFilter (some q)
        (store.filter (fun m => m.owner == ident)) :=
      ((sortParam_perm (parseOrd ord) _).mem_iff).mp hn
    have h2 : n ∈ store.filter (fun m => m.owner == ident) :=
      mem_searchFilter h1
    have h3 := List.mem_filter.mp h2
    refine ⟨h3.1, eq_of_beq h3.2, ?_⟩
    dsimp only [searchFilter] at h1
    by_cases hq : q.isEmpty = true
    · have hqd : q.data = [] := by
        rw [(String.isEmpty_iff q).mp hq]
      unfold titleMatches
      rw [hqd]
      exact subMatch_nil _
    · rw [if_neg hq] at h1
      exact (List.mem_filter.mp h1).2
  · rintro ⟨hmem, howner, hmatch⟩
    have h2 : n ∈ store.filter (fun m => m.owner == ident) :=
      List.mem_filter.mpr ⟨hmem, beq_iff_eq.mpr howner⟩
    have h1 : n ∈ searchFilter (some q)
        (store.filter (fun m => m.owner == ident)) := by
      dsimp only [searchFilter]
      by_cases hq : q.isEmpty = true
      · rw [if_pos hq]
        exact h2
      · rw [if_neg hq]
        exact List.mem_filter.mpr ⟨h2, hmatch⟩
    exact ((sortParam_perm (parseOrd ord) _).mem_iff).mpr h1

/-- Two lists that are permutations of one another, have equal images under
a map, and have no duplicate image values, are equal. -/
theorem perm_map_nodup_eq {α β : Type} {f : α → β} :
    ∀ (l1 l2 : List α), List.Perm l1 l2 → l1.map f = l2.map f →
      (l1.map f).Nodup → l1 = l2 := by
  intro l1
  induction l1 with
  | nil =>
    intro l2 hp _ _
    exact (hp.symm.eq_nil).symm
  | cons a t ih =>
    intro l2 hp hm hn
    cases l2 with
    | nil =>
      exact absurd hp.eq_nil (by simp)
    | cons b t2 =>
      simp only [List.map_cons, List.cons.injEq] at hm
      obtain ⟨hab, ht⟩ := hm
      have hA : a = b := by
        rcases List.mem_cons.mp (hp.mem_iff.mp (List.mem_cons_self a t)) with
          h | h
        · exact h
        · exfalso
          have hfa : f a ∈ t2.map f := List.mem_map_of_mem f h
          rw [← ht] at hfa
          exact (List.nodup_cons.mp hn).1 hfa
      subst hA
      have hp2 : List.Perm t t2 := hp.cons_inv
      rw [ih t2 hp2 ht (List.nodup_cons.mp hn).2]

/-- C8 (amended): `ordering=title` sorts ascending by title, lexicographic
on characters; `ordering=-title` sorts descending, is a permutation of the
`ordering=title` result, and is its exact reverse whenever the stored titles
are pairwise distinct; `ordering=-created_at` is newest-first; and an absent
ordering parameter behaves exactly like `ordering=-created_at` (the model
default `['-created_at']`). -/
theorem c8_ordering_amended (store : List Note) (ident : String)
    (search : Option String) :
    List.Sorted (fun a b : Note => a.title.data ≤ b.title.data)
      (resolveRegular store ident search (some "title")) ∧
    List.Sorted (fun a b : Note => b.title.data ≤ a.title.data)
      (resolveRegular store ident search (some "-title")) ∧
    List.Perm (resolveRegular store ident search (some "-title"))
      (resolveRegular store ident search (some "title")) ∧
    ((store.map Note.title).Nodup →
      resolveRegular store ident search (some "-title") =
        (resolveRegular store ident search (some "title")).reverse) ∧
    List.Sorted (fun a b : Note => b.created_at ≤ a.created_at)
      (resolveRegular store ident search (some "-created_at")) ∧
    resolveRegular store ident search none =
      resolveRegular store ident search (some "-created_at") := by
  haveI iTotA : IsTotal Note (fun a b : Note => a.title.data ≤ b.title.data) :=
    ⟨fun a b => le_total _ _⟩
  haveI iTransA : IsTrans Note (fun a b : Note => a.title.data ≤ b.title.data) :=
    ⟨fun a b c h1 h2 => le_trans h1 h2⟩
  haveI iTotD : IsTotal Note (fun a b : Note => b.title.data ≤ a.title.data) :=
    ⟨fun a b => le_total _ _⟩
  haveI iTransD : IsTrans Note (fun a b : Note => b.title.data ≤ a.title.data) :=
    ⟨fun a b c h1 h2 => le_trans h2 h1⟩
  haveI iTotC : IsTotal Note (fun a b : Note => b.created_at ≤ a.created_at) :=
    ⟨fun a b => le_total _ _⟩
  haveI iTransC : IsTrans Note (fun a b : Note => b.created_at ≤ a.created_at) :=
    ⟨fun a b c h1 h2 => le_trans h2 h1⟩
  have e1 : resolveRegular store ident search (some "title") =
      List.insertionSort (fun a b : Note => a.title.data ≤ b.title.data)
        (searchFilter search (store.filter (fun m => m.owner == ident))) := rfl
  have e2 : resolveRegular store ident search (some "-title") =
      List.insertionSort (fun a b : Note => b.title.data ≤ a.title.data)
        (searchFilter search (store.filter (fun m => m.owner == ident))) := rfl
  have e3 : resolveRegular store ident search (some "-created_at") =
      List.insertionSort (fun a b : Note => b.created_at ≤ a.created_at)
        (searchFilter search (store.filter (fun m => m.owner == ident))) := rfl
  refine ⟨?_, ?_, ?_, ?_, ?_, rfl⟩
  · rw [e1]
    exact List.sorted_insertionSort _ _
  · rw [e2]
    exact List.sorted_insertionSort _ _
  · rw [e1, e2]
    exact (List.perm_insertionSort _ _).trans
      (List.perm_insertionSort _ _).symm
  · intro hnodup
    rw [e1, e2]
    set f : Note → List Char := fun n => n.title.data with hfdef
    set base := searchFilter search (store.filter (fun m => m.owner == ident))
      with hbase
    set asc := List.insertionSort
      (fun a b : Note => a.title.data ≤ b.title.data) base with hasc
    set desc := List.insertionSort
      (fun a b : Note => b.title.data ≤ a.title.data) base with hdesc
    have hascperm : List.Perm asc base := List.perm_insertionSort _ _
    have hdescperm : List.Perm desc base := List.perm_insertionSort _ _
    have hperm : List.Perm desc asc.reverse :=
      hdescperm.trans (hascperm.symm.trans (List.reverse_perm asc).symm)
    haveI : IsAntisymm (List Char) (fun x y : List Char => y ≤ x) :=
      ⟨fun a b h1 h2 => le_antisymm h2 h1⟩
    have hD : (desc.map f).Pairwise (fun x y : List Char => y ≤ x) :=
      List.Pairwise.map f (fun a b h => h)
        (List.sorted_insertionSort _ base)
    have hA : (asc.map f).Pairwise (fun x y : List Char => x ≤ y) :=
      List.Pairwise.map f (fun a b h => h)
        (List.sorted_insertionSort _ base)
    have hArev : ((asc.reverse).map f).Pairwise
        (fun x y : List Char => y ≤ x) := by
      rw [List.map_reverse]
      exact List.pairwise_reverse.mpr hA
    have hmapseq : desc.map f = (asc.reverse).map f :=
      List.eq_of_perm_of_sorted (hperm.map f) hD hArev
    have hstoreNodup : (store.map f).Nodup := by
      have hmm : store.map f = (store.map Note.title).map String.data := by
        rw [List.map_map]
        rfl
      rw [hmm]
      exact hnodup.map (fun s1 s2 h => by
        cases s1
        cases s2
        exact congrArg String.mk (by simpa using h))
    have hbase_sub : List.Sublist base store :=
      (searchFilter_sublist search _).trans (List.filter_sublist store)
    have hmapsub : List.Sublist (base.map f) (store.map f) := hbase_sub.map f
    have hbaseNodup : (base.map f).Nodup := hstoreNodup.sublist hmapsub
    have hdescNodup : (desc.map f).Nodup :=
      ((hdescperm.map f).nodup_iff).mpr hbaseNodup
    exact perm_map_nodup_eq desc asc.reverse hperm hmapseq hdescNodup
  · rw [e3]
    exact List.sorted_insertionSort _ _

/-- Counterexample for C8 as literally stated: with two distinct notes
sharing the title "Banana", the `ordering=-title` result is not the exact
reverse of the `ordering=title` result. -/
theorem c8_ordering_counterexample :
    resolveRegular dupTitleStore "user1@example.com" none (some "-title") ≠
      (resolveRegular dupTitleStore "user1@example.com" none
        (some "title")).reverse := by
  decide

/-- Witness for C8 on a store whose titles are pairwise distinct: the
descending result is the exact reverse of the ascending one. -/
theorem c8_ordering_amended_witness :
    (sampleStore.map Note.title).Nodup ∧
    resolveRegular sampleStore "user1@example.com" none (some "-title") =
      (resolveRegular sampleStore "user1@example.com" none
        (some "title")).reverse := by
  refine ⟨by decide, ?_⟩
  exact (c8_ordering_amended sampleStore "user1@example.com" none).2.2.2.1
    (by decide)

/-- C4: status codes of denials: an anonymous actor receives 401 at every
endpoint; an identified non-admin actor on the admin namespace receives
403; an identified non-owner addressing an existing note on the regular
detail path receives the masked 404, never 403 — the same status a
genuinely absent note yields. -/
theorem c4_denial_status_codes :
    (∀ store req now nextId,
      (handle Actor.anonymous store req now nextId).status = 401) ∧
    (∀ i store req now nextId, req.isAdminNamespace = true →
      (handle (Actor.auth i Role.regular) store req now nextId).status
        = 403) ∧
    (∀ i r store nid m p patch now nextId,
      findNote store nid = some m → m.owner ≠ i →
      (handle (Actor.auth i r) store (Request.retrieve nid) now
          nextId).status = 404 ∧
      (handle (Actor.auth i r) store (Request.update nid p patch) now
          nextId).status = 404 ∧
      (handle (Actor.auth i r) store (Request.destroy nid) now
          nextId).status = 404 ∧
      (404 : Nat) ≠ 403) ∧
    (∀ i r store nid now nextId, findNote store nid = none →
      (handle (Actor.auth i r) store (Request.retrieve nid) now
          nextId).status = 404) := by
  refine ⟨fun _ _ _ _ => rfl, ?_, ?_, ?_⟩
  · intro i store req now nextId hreq
    cases req <;>
      first
        | rfl
        | simp [Request.isAdminNamespace] at hreq
  · intro i r store nid m p patch now nextId hf ho
    have hob : (m.owner == i) = false := beq_eq_false_iff_ne.mpr ho
    refine ⟨?_, ?_, ?_, by decide⟩ <;> simp [handle, hf, hob]
  · intro i r store nid now nextId hf
    simp [handle, hf]

/-- Witness for C4 at concrete requests: a regular user on the admin list
endpoint, and a regular user reading another user's existing note. -/
theorem c4_denial_status_codes_witness :
    (Request.adminList none none none).isAdminNamespace = true ∧
    (handle (Actor.auth "user1@example.com" Role.regular) sampleStore
      (Request.adminList none none none) 0 0).status = 403 ∧
    findNote sampleStore 3 = some notePython ∧
    notePython.owner ≠ "user1@example.com" ∧
    (handle (Actor.auth "user1@example.com" Role.regular) sampleStore
      (Request.retrieve 3) 0 0).status = 404 ∧
    findNote sampleStore 999999 = none ∧
    (handle (Actor.auth "user1@example.com" Role.regular) sampleStore
      (Request.retrieve 999999) 0 0).status = 404 := by
  refine ⟨by decide, c4_denial_status_codes.2.1 "user1@example.com"
    sampleStore (Request.adminList none none none) 0 0 (by decide),
    by decide, by decide, ?_, by decide, ?_⟩
  · exact (c4_denial_status_codes.2.2.1 "user1@example.com" Role.regular
      sampleStore 3 notePython
      { title := none, content := none, user := none, id := none,
        created_at := none, updated_at := none }
      false 0 0 (by decide) (by decide)).1
  · exact c4_denial_status_codes.2.2.2 "user1@example.com" Role.regular
      sampleStore 999999 0 0 (by decide)

/-- C10: every request that terminates with a 4xx status — unauthenticated,
forbidden, masked or genuine not-found, or validation failure — leaves the
note store exactly as it was. -/
theorem c10_4xx_preserves_store (actor : Actor) (store : List Note)
    (req : Request) (now nextId : Nat) :
    400 ≤ (handle actor store req now nextId).status →
    (handle actor store req now nextId).status < 500 →
    (handle actor store req now nextId).store = store := by
  cases actor with
  | anonymous =>
    intro h1 h2
    rfl
  | auth i r =>
    cases req <;> simp only [handle] <;> (repeat' split) <;>
      intro h1 h2 <;>
      first
        | rfl
        | simp at h1

/-- Witness for C10 at a concrete 4xx request: a non-owner update attempt
answers 404 and the store is unchanged. -/
theorem c10_4xx_preserves_store_witness :
    400 ≤ (handle (Actor.auth "user1@example.com" Role.regular) sampleStore
      (Request.update 3
        { title := some "Malicious Update", content := some "nope",
          user := none, id := none, created_at := none, updated_at := none }
        false) 0 9).status ∧
    (handle (Actor.auth "user1@example.com" Role.regular) sampleStore
      (Request.update 3
        { title := some "Malicious Update", content := some "nope",
          user := none, id := none, created_at := none, updated_at := none }
        false) 0 9).status < 500 ∧
    (handle (Actor.auth "user1@example.com" Role.regular) sampleStore
      (Request.update 3
        { title := some "Malicious Update", content := some "nope",
          user := none, id := none, created_at := none, updated_at := none }
        false) 0 9).store = sampleStore := by
  refine ⟨by decide, by decide, ?_⟩
  exact c10_4xx_preserves_store (Actor.auth "user1@example.com" Role.regular)
    sampleStore
    (Request.update 3
      { title := some "Malicious Update", content := some "nope",
        user := none, id := none, created_at := none, updated_at := none }
      false) 0 9 (by decide) (by decide)

end Notely
